import Mathlib

/-!
Verification of the VibeSniff suspicion-scoring engine.

This file gives a shallow embedding of the scoring core of the repository:
the rule-based scoring step of the scanner's scan routine, the risk-level
classification, the three domain signal providers (registration-age lookup,
certificate-age lookup, first-archived lookup), the apex-domain resolver
getETLDPlusOne, and the simplified inline scoring override of the HTTP
server's POST /scan handler. Dates are modelled as integer epoch
milliseconds; JavaScript numbers that can be NaN are modelled by the
JSNumber type; score arithmetic is exact rational arithmetic.
-/

namespace VibeSniff

/-- The discrete risk classification of a scan result. -/
inductive RiskLevel where
  | LOW
  | MEDIUM
  | HIGH
deriving DecidableEq

/-- One scoring rule that fired: its display name, its weight and the
observed value that triggered it, as pushed onto the riskFactors array. -/
structure RiskFactor where
  factor : String
  weight : ℚ
  value : Int
deriving DecidableEq

/-- The page features consumed by the scoring step of the scanner's scan:
the values of the local variables of the scan routine that the scoring
rules read (the DOM analysis that produces them is an external
collaborator). -/
structure PageFeatures where
  hasPasswordForm : Bool
  hasActionMismatch : Bool
  suspiciousFormPatterns : List String
  externalHostsCount : Nat
  foundSuspiciousKeywords : List String
  suspiciousLinkPatterns : List String
  hasPopups : Bool
  hasRedirects : Bool
  suspiciousIframes : List String
deriving DecidableEq

/-- The three independently nullable trust signals collected before the
scoring step runs. -/
structure Signals where
  domainAge : Option Int
  tlsAge : Option Int
  waybackFirstSeen : Option Int
deriving DecidableEq

/-- The accumulator mutated by the scoring rules: the running score and the
reasons and riskFactors arrays. -/
structure ScanState where
  score : ℚ
  reasons : List String
  riskFactors : List RiskFactor
deriving DecidableEq

/-- The scoring-relevant part of the object returned by the scanner's scan. -/
structure ScanResult where
  score : ℚ
  riskLevel : RiskLevel
  reasons : List String
  riskFactors : List RiskFactor
deriving DecidableEq

/-- Floor of a rational number, written so that it evaluates by kernel
reduction (it agrees with the Mathlib floor, see ratFloor_eq). -/
def ratFloor (q : ℚ) : Int := q.num / (q.den : Int)

/-- JavaScript Math.ceil on an exact rational. -/
def jsCeil (q : ℚ) : Int := -ratFloor (-q)

/-- JavaScript Math.round on an exact rational: round half toward positive
infinity. -/
def jsRound (q : ℚ) : Int := ratFloor (q + 1 / 2)

/-- One plain scoring rule of the scanner's scan: when the condition holds
the weight is added to the score and one reason string and one riskFactor
entry are pushed; otherwise the state is unchanged. -/
def applyRule (st : ScanState) (cond : Bool) (w : ℚ) (reason : String) (rf : RiskFactor) : ScanState :=
  if cond then
    { score := st.score + w, reasons := st.reasons ++ [reason], riskFactors := st.riskFactors ++ [rf] }
  else st

/-- The domain-age rule pair of the scanner's scan: a non-null age below 7
days adds 0.35, otherwise a non-null age below 30 days adds 0.15. -/
def domainAgeStep (st : ScanState) (domainAge : Option Int) : ScanState :=
  match domainAge with
  | some d =>
    if d < 7 then
      { score := st.score + 0.35,
        reasons := st.reasons ++ ["Domain age is " ++ toString d ++ " days (suspicious if < 7)"],
        riskFactors := st.riskFactors ++ [{ factor := "New Domain", weight := 0.35, value := d }] }
    else if d < 30 then
      { score := st.score + 0.15,
        reasons := st.reasons ++ ["Domain age is " ++ toString d ++ " days (somewhat new)"],
        riskFactors := st.riskFactors ++ [{ factor := "Recent Domain", weight := 0.15, value := d }] }
    else st
  | none => st

/-- The TLS-certificate-age rule of the scanner's scan: a non-null age below
7 days adds 0.20. -/
def tlsAgeStep (st : ScanState) (tlsAge : Option Int) : ScanState :=
  match tlsAge with
  | some t =>
    if t < 7 then
      { score := st.score + 0.20,
        reasons := st.reasons ++ ["TLS certificate age is " ++ toString t ++ " days (suspicious if < 7)"],
        riskFactors := st.riskFactors ++ [{ factor := "New Certificate", weight := 0.20, value := t }] }
    else st
  | none => st

/-- JavaScript Array.join with a comma separator, as used for the
suspicious-form-patterns reason string. -/
def joinComma : List String → String
  | [] => ""
  | [s] => s
  | s :: rest => s ++ ", " ++ joinComma rest

/-- The ordered rule evaluation of the scanner's scan: starting from score 0
and empty reasons and riskFactors arrays, the ten rules run in source
order. -/
def scoreState (f : PageFeatures) (sig : Signals) : ScanState :=
  let st1 := domainAgeStep { score := 0, reasons := [], riskFactors := [] } sig.domainAge
  let st2 := tlsAgeStep st1 sig.tlsAge
  let st3 := applyRule st2 f.hasPasswordForm 0.20 ("Contains password form")
    { factor := "Password Form", weight := 0.20, value := 1 }
  let st4 := applyRule st3 f.hasActionMismatch 0.25 ("Password form action points to different domain")
    { factor := "Action Mismatch", weight := 0.25, value := 1 }
  let st5 := applyRule st4 (decide (0 < f.suspiciousFormPatterns.length)) 0.15
    ("Suspicious form patterns: " ++ joinComma f.suspiciousFormPatterns)
    { factor := "Suspicious Forms", weight := 0.15, value := (f.suspiciousFormPatterns.length : Int) }
  let st6 := applyRule st5 (decide (8 < f.externalHostsCount)) 0.10
    ("High number of external hosts: " ++ toString f.externalHostsCount ++ " (suspicious if > 8)")
    { factor := "High External Hosts", weight := 0.10, value := (f.externalHostsCount : Int) }
  let st7 := applyRule st6 (decide (3 < f.foundSuspiciousKeywords.length)) 0.15
    ("High number of suspicious keywords: " ++ toString f.foundSuspiciousKeywords.length)
    { factor := "Suspicious Keywords", weight := 0.15, value := (f.foundSuspiciousKeywords.length : Int) }
  let st8 := applyRule st7 (decide (0 < f.suspiciousLinkPatterns.length)) 0.10
    ("Suspicious link patterns detected: " ++ toString f.suspiciousLinkPatterns.length)
    { factor := "Suspicious Links", weight := 0.10, value := (f.suspiciousLinkPatterns.length : Int) }
  let st9 := applyRule st8 (f.hasPopups || f.hasRedirects) 0.10
    ("Contains popup or redirect scripts")
    { factor := "Popups/Redirects", weight := 0.10, value := 1 }
  applyRule st9 (decide (0 < f.suspiciousIframes.length)) 0.10
    ("Suspicious iframes detected: " ++ toString f.suspiciousIframes.length)
    { factor := "Suspicious Iframes", weight := 0.10, value := (f.suspiciousIframes.length : Int) }

/-- The risk-level derivation of the scanner's scan, extracted as a named
function: LOW unless the score exceeds 0.4 (MEDIUM) or 0.7 (HIGH). -/
def classify (score : ℚ) : RiskLevel :=
  if score > 0.7 then RiskLevel.HIGH
  else if score > 0.4 then RiskLevel.MEDIUM
  else RiskLevel.LOW

/-- The scoring step of the scanner's scan: run the rules, cap the score at
1.0, derive the risk level from the capped score, insert the fallback
reason when no rule fired, and report the score rounded to two decimal
places. -/
def scan (f : PageFeatures) (sig : Signals) : ScanResult :=
  let st := scoreState f sig
  let score := min st.score 1
  let riskLevel := if score > 0.7 then RiskLevel.HIGH
    else if score > 0.4 then RiskLevel.MEDIUM
    else RiskLevel.LOW
  let reasons := if st.reasons.length = 0 then ["No obvious suspicious patterns detected"] else st.reasons
  { score := (jsRound (score * 100) : ℚ) / 100,
    riskLevel := riskLevel,
    reasons := reasons,
    riskFactors := st.riskFactors }

/-- A JavaScript numeric result of a provider: the usual case is an integer
number of days, but arithmetic on an invalid date produces NaN. -/
inductive JSNumber where
  | nan
  | int (n : Int)
deriving DecidableEq

/-- The shared date arithmetic of the three providers: the ceiling of the
absolute difference between two epoch-millisecond instants, in days. -/
def ageInDays (now t : Int) : Int :=
  jsCeil (((|now - t| : Int) : ℚ) / (1000 * 60 * 60 * 24))

/-- The registration record returned by the WHOIS lookup. Each field is
absent (the JavaScript value is missing or falsy) or present; a present
field carries the outcome of parsing it as a date: none models an invalid
date (whose arithmetic yields NaN), some t a valid date at epoch
millisecond t. -/
structure WhoisRecord where
  creationDate : Option (Option Int)
  registered : Option (Option Int)
  created : Option (Option Int)
deriving DecidableEq

/-- The registration-age provider getDomainAge: a thrown lookup (modelled by
a none record) is caught and yields null; otherwise the first present of
creationDate, registered, created is used; no usable field yields null; a
present but unparsable date yields NaN; a valid date yields the ceiling of
the day difference from now. -/
def getDomainAge (now : Int) (result : Option WhoisRecord) : Option JSNumber :=
  match result with
  | none => none
  | some r =>
    match r.creationDate.orElse (fun _ => r.registered.orElse (fun _ => r.created)) with
    | none => none
    | some none => some JSNumber.nan
    | some (some created) => some (JSNumber.int (ageInDays now created))

/-- The observable outcome of the TLS connection attempt made by getTLSAge:
a connection error, the 5-second timeout, or a completed handshake whose
peer certificate carries an absent, unparsable, or valid valid-from
field. -/
inductive TLSOutcome where
  | connectError
  | timeout
  | connected (validFrom : Option (Option Int))
deriving DecidableEq

/-- The certificate-age provider getTLSAge: connection errors and timeouts
resolve to null; a missing valid-from field resolves to null; a present but
unparsable valid-from yields NaN; a valid one yields the ceiling of the day
difference from now. -/
def getTLSAge (now : Int) (outcome : TLSOutcome) : Option JSNumber :=
  match outcome with
  | TLSOutcome.connectError => none
  | TLSOutcome.timeout => none
  | TLSOutcome.connected none => none
  | TLSOutcome.connected (some none) => some JSNumber.nan
  | TLSOutcome.connected (some (some validFrom)) => some (JSNumber.int (ageInDays now validFrom))

/-- The observable outcome of the archive-index request made by
getWaybackFirstSeen: a thrown fetch or JSON parse (fetchError, which also
covers a non-array response, since both paths return null), or a parsed
array of rows of strings. -/
inductive WaybackOutcome where
  | fetchError
  | data (rows : List (List String))
deriving DecidableEq

/-- The first-archived provider getWaybackFirstSeen, parameterised by a
model dateOf of JavaScript Date parsing of the assembled YYYY-MM-DD string
(none models an invalid date). Fewer than two rows, a missing or empty
timestamp cell, or a thrown request yield null; an unparsable date yields
NaN; otherwise the ceiling of the day difference from now. -/
def getWaybackFirstSeen (dateOf : String → Option Int) (now : Int) (outcome : WaybackOutcome) : Option JSNumber :=
  match outcome with
  | WaybackOutcome.fetchError => none
  | WaybackOutcome.data rows =>
    match rows.get? 1 with
    | none => none
    | some row =>
      match row.get? 1 with
      | none => none
      | some ts =>
        if ts = "" then none
        else
          match dateOf (ts.take 4 ++ "-" ++ (ts.drop 4).take 2 ++ "-" ++ (ts.drop 6).take 2) with
          | none => some JSNumber.nan
          | some firstSeen => some (JSNumber.int (ageInDays now firstSeen))

/-- Character-list splitting on a separator character, the model of
JavaScript String.split used by getETLDPlusOne. -/
def splitCharAux (sep : Char) : List Char → List Char → List (List Char)
  | [], acc => [acc.reverse]
  | c :: cs, acc =>
    if c = sep then acc.reverse :: splitCharAux sep cs []
    else splitCharAux sep cs (c :: acc)

/-- JavaScript String.split with a one-character separator. -/
def jsSplit (s : String) (sep : Char) : List String :=
  (splitCharAux sep s.data []).map String.mk

/-- JavaScript Array.join with a dot separator, as used on the sliced label
list of getETLDPlusOne. -/
def joinDot : List String → String
  | [] => ""
  | [s] => s
  | s :: rest => s ++ "." ++ joinDot rest

/-- Take the longest prefix of a character list satisfying a predicate. -/
def takeWhileChar (p : Char → Bool) : List Char → List Char
  | [] => []
  | c :: cs => if p c then c :: takeWhileChar p cs else []

/-- Split a character list at the first scheme separator, yielding the
scheme and the remainder. -/
def splitScheme : List Char → Option (List Char × List Char)
  | [] => none
  | ':' :: '/' :: '/' :: rest => some ([], rest)
  | c :: cs =>
    match splitScheme cs with
    | some (l, r) => some (c :: l, r)
    | none => none

/-- Model of the runtime WHATWG URL parser as used by getETLDPlusOne: the
hostname of a parsable URL (the part of the authority before any path,
query, fragment or port), or none when parsing throws. -/
def parseHostname (url : String) : Option String :=
  match splitScheme url.data with
  | none => none
  | some (scheme, rest) =>
    if scheme = [] then none
    else
      let authority := takeWhileChar (fun c => c != '/' && c != '?' && c != '#') rest
      let host := takeWhileChar (fun c => c != ':') authority
      if host = [] then none else some (String.mk host)

/-- The apex-domain resolver getETLDPlusOne: split the hostname on dots; a
hostname of at least two labels resolves to the last two joined by a dot,
a shorter one to itself; an unparsable URL resolves to null. -/
def getETLDPlusOne (url : String) : Option String :=
  match parseHostname url with
  | none => none
  | some hostname =>
    let parts := jsSplit hostname '.'
    if 2 ≤ parts.length then some (joinDot (parts.drop (parts.length - 2)))
    else some hostname

/-- The scoring state of the inline scan override installed by the server's
POST /scan handler: a running score and a reasons array (that override
keeps no riskFactors). -/
structure ServerState where
  score : ℚ
  reasons : List String
deriving DecidableEq

/-- The scoring-relevant part of the response of the server's inline scan
override. -/
structure ServerResult where
  score : ℚ
  reasons : List String
deriving DecidableEq

/-- One plain scoring rule of the server's inline scan override. -/
def serverRule (st : ServerState) (cond : Bool) (w : ℚ) (reason : String) : ServerState :=
  if cond then { score := st.score + w, reasons := st.reasons ++ [reason] } else st

/-- The domain-age rule of the server's inline scan override: only the
below-7-days branch exists there; no below-30-days branch. -/
def serverDomainStep (st : ServerState) (domainAge : Option Int) : ServerState :=
  match domainAge with
  | some d =>
    if d < 7 then
      { score := st.score + 0.35,
        reasons := st.reasons ++ ["Domain age is " ++ toString d ++ " days (suspicious if < 7)"] }
    else st
  | none => st

/-- The TLS-certificate-age rule of the server's inline scan override. -/
def serverTLSStep (st : ServerState) (tlsAge : Option Int) : ServerState :=
  match tlsAge with
  | some t =>
    if t < 7 then
      { score := st.score + 0.20,
        reasons := st.reasons ++ ["TLS certificate age is " ++ toString t ++ " days (suspicious if < 7)"] }
    else st
  | none => st

/-- The ordered rule evaluation of the server's inline scan override. -/
def serverState (domainAge tlsAge : Option Int) (hasPasswordForm hasActionMismatch : Bool) (externalHostsCount : Nat) : ServerState :=
  let st1 := serverDomainStep { score := 0, reasons := [] } domainAge
  let st2 := serverTLSStep st1 tlsAge
  let st3 := serverRule st2 hasPasswordForm 0.20 ("Contains password form")
  let st4 := serverRule st3 hasActionMismatch 0.25 ("Password form action points to different domain")
  serverRule st4 (decide (8 < externalHostsCount)) 0.10
    ("High number of external hosts: " ++ toString externalHostsCount ++ " (suspicious if > 8)")

/-- The scoring step of the server's inline scan override: run its five
rules, cap the score at 1.0, insert the fallback reason when no rule fired,
and report the score rounded to two decimal places. -/
def serverScan (domainAge tlsAge : Option Int) (hasPasswordForm hasActionMismatch : Bool) (externalHostsCount : Nat) : ServerResult :=
  let st := serverState domainAge tlsAge hasPasswordForm hasActionMismatch externalHostsCount
  let score := min st.score 1
  let reasons := if st.reasons.length = 0 then ["No obvious suspicious patterns detected"] else st.reasons
  { score := (jsRound (score * 100) : ℚ) / 100, reasons := reasons }

/-- The weight-list chunk contributed by the domain-age rule pair. -/
def domainAgeWeights (x : Option Int) : List ℚ :=
  match x with
  | some d => if d < 7 then [0.35] else if d < 30 then [0.15] else []
  | none => []

/-- The weight-list chunk contributed by the TLS-certificate-age rule. -/
def tlsAgeWeights (x : Option Int) : List ℚ :=
  match x with
  | some t => if t < 7 then [0.20] else []
  | none => []

/-- The weights of the rules that fire on a given input, in rule order. -/
def firedWeights (f : PageFeatures) (sig : Signals) : List ℚ :=
  domainAgeWeights sig.domainAge ++ tlsAgeWeights sig.tlsAge ++
  (if f.hasPasswordForm then [0.20] else []) ++
  (if f.hasActionMismatch then [0.25] else []) ++
  (if 0 < f.suspiciousFormPatterns.length then [0.15] else []) ++
  (if 8 < f.externalHostsCount then [0.10] else []) ++
  (if 3 < f.foundSuspiciousKeywords.length then [0.15] else []) ++
  (if 0 < f.suspiciousLinkPatterns.length then [0.10] else []) ++
  (if f.hasPopups || f.hasRedirects then [0.10] else []) ++
  (if 0 < f.suspiciousIframes.length then [0.10] else [])

/-- The reason-list chunk contributed by the domain-age rule pair. -/
def domainAgeReasons (x : Option Int) : List String :=
  match x with
  | some d =>
    if d < 7 then ["Domain age is " ++ toString d ++ " days (suspicious if < 7)"]
    else if d < 30 then ["Domain age is " ++ toString d ++ " days (somewhat new)"]
    else []
  | none => []

/-- The riskFactor-list chunk contributed by the domain-age rule pair. -/
def domainAgeFactors (x : Option Int) : List RiskFactor :=
  match x with
  | some d =>
    if d < 7 then [{ factor := "New Domain", weight := 0.35, value := d }]
    else if d < 30 then [{ factor := "Recent Domain", weight := 0.15, value := d }]
    else []
  | none => []

/-- The reason-list chunk contributed by the TLS-certificate-age rule. -/
def tlsAgeReasons (x : Option Int) : List String :=
  match x with
  | some t => if t < 7 then ["TLS certificate age is " ++ toString t ++ " days (suspicious if < 7)"] else []
  | none => []

/-- The riskFactor-list chunk contributed by the TLS-certificate-age rule. -/
def tlsAgeFactors (x : Option Int) : List RiskFactor :=
  match x with
  | some t => if t < 7 then [{ factor := "New Certificate", weight := 0.20, value := t }] else []
  | none => []

theorem ratFloor_eq (q : ℚ) : ratFloor q = ⌊q⌋ := by
  rw [ratFloor, Rat.floor_def]

theorem jsCeil_eq (q : ℚ) : jsCeil q = ⌈q⌉ := by
  rw [jsCeil, ratFloor_eq, Int.floor_neg, neg_neg]

theorem jsRound_eq (q : ℚ) : jsRound q = round q := by
  rw [jsRound, ratFloor_eq, round_eq]

theorem applyRule_score (st : ScanState) (c : Bool) (w : ℚ) (r : String) (rf : RiskFactor) :
    (applyRule st c w r rf).score = st.score + (if c then w else 0) := by
  cases c <;> simp [applyRule]

theorem applyRule_reasons (st : ScanState) (c : Bool) (w : ℚ) (r : String) (rf : RiskFactor) :
    (applyRule st c w r rf).reasons = st.reasons ++ (if c then [r] else []) := by
  cases c <;> simp [applyRule]

theorem applyRule_riskFactors (st : ScanState) (c : Bool) (w : ℚ) (r : String) (rf : RiskFactor) :
    (applyRule st c w r rf).riskFactors = st.riskFactors ++ (if c then [rf] else []) := by
  cases c <;> simp [applyRule]

theorem domainAgeStep_score (st : ScanState) (x : Option Int) :
    (domainAgeStep st x).score = st.score + (domainAgeWeights x).sum := by
  rcases x with _ | d <;> simp only [domainAgeStep, domainAgeWeights] <;> try split_ifs
  all_goals simp

theorem domainAgeStep_reasons (st : ScanState) (x : Option Int) :
    (domainAgeStep st x).reasons = st.reasons ++ domainAgeReasons x := by
  rcases x with _ | d <;> simp only [domainAgeStep, domainAgeReasons] <;> try split_ifs
  all_goals simp

theorem domainAgeStep_riskFactors (st : ScanState) (x : Option Int) :
    (domainAgeStep st x).riskFactors = st.riskFactors ++ domainAgeFactors x := by
  rcases x with _ | d <;> simp only [domainAgeStep, domainAgeFactors] <;> try split_ifs
  all_goals simp

theorem tlsAgeStep_score (st : ScanState) (x : Option Int) :
    (tlsAgeStep st x).score = st.score + (tlsAgeWeights x).sum := by
  rcases x with _ | t <;> simp only [tlsAgeStep, tlsAgeWeights] <;> try split_ifs
  all_goals simp

theorem tlsAgeStep_reasons (st : ScanState) (x : Option Int) :
    (tlsAgeStep st x).reasons = st.reasons ++ tlsAgeReasons x := by
  rcases x with _ | t <;> simp only [tlsAgeStep, tlsAgeReasons] <;> try split_ifs
  all_goals simp

theorem tlsAgeStep_riskFactors (st : ScanState) (x : Option Int) :
    (tlsAgeStep st x).riskFactors = st.riskFactors ++ tlsAgeFactors x := by
  rcases x with _ | t <;> simp only [tlsAgeStep, tlsAgeFactors] <;> try split_ifs
  all_goals simp

theorem scoreState_score (f : PageFeatures) (sig : Signals) :
    (scoreState f sig).score = (firedWeights f sig).sum := by
  simp only [scoreState, applyRule_score, tlsAgeStep_score, domainAgeStep_score,
    firedWeights, List.sum_append]
  simp only [apply_ite List.sum, List.sum_cons, List.sum_nil, Bool.or_eq_true,
    decide_eq_true_eq]
  ring_nf

theorem scoreState_reasons (f : PageFeatures) (sig : Signals) :
    (scoreState f sig).reasons =
      domainAgeReasons sig.domainAge ++ tlsAgeReasons sig.tlsAge ++
      (if f.hasPasswordForm then [("Contains password form")] else []) ++
      (if f.hasActionMismatch then [("Password form action points to different domain")] else []) ++
      (if 0 < f.suspiciousFormPatterns.length then [("Suspicious form patterns: " ++ joinComma f.suspiciousFormPatterns)] else []) ++
      (if 8 < f.externalHostsCount then [("High number of external hosts: " ++ toString f.externalHostsCount ++ " (suspicious if > 8)")] else []) ++
      (if 3 < f.foundSuspiciousKeywords.length then [("High number of suspicious keywords: " ++ toString f.foundSuspiciousKeywords.length)] else []) ++
      (if 0 < f.suspiciousLinkPatterns.length then [("Suspicious link patterns detected: " ++ toString f.suspiciousLinkPatterns.length)] else []) ++
      (if f.hasPopups || f.hasRedirects then [("Contains popup or redirect scripts")] else []) ++
      (if 0 < f.suspiciousIframes.length then [("Suspicious iframes detected: " ++ toString f.suspiciousIframes.length)] else []) := by
  simp only [scoreState, applyRule_reasons, tlsAgeStep_reasons, domainAgeStep_reasons,
    Bool.or_eq_true, decide_eq_true_eq, List.append_assoc, List.nil_append]

theorem scoreState_riskFactors (f : PageFeatures) (sig : Signals) :
    (scoreState f sig).riskFactors =
      domainAgeFactors sig.domainAge ++ tlsAgeFactors sig.tlsAge ++
      (if f.hasPasswordForm then [{ factor := "Password Form", weight := 0.20, value := 1 }] else []) ++
      (if f.hasActionMismatch then [{ factor := "Action Mismatch", weight := 0.25, value := 1 }] else []) ++
      (if 0 < f.suspiciousFormPatterns.length then [{ factor := "Suspicious Forms", weight := 0.15, value := (f.suspiciousFormPatterns.length : Int) }] else []) ++
      (if 8 < f.externalHostsCount then [{ factor := "High External Hosts", weight := 0.10, value := (f.externalHostsCount : Int) }] else []) ++
      (if 3 < f.foundSuspiciousKeywords.length then [{ factor := "Suspicious Keywords", weight := 0.15, value := (f.foundSuspiciousKeywords.length : Int) }] else []) ++
      (if 0 < f.suspiciousLinkPatterns.length then [{ factor := "Suspicious Links", weight := 0.10, value := (f.suspiciousLinkPatterns.length : Int) }] else []) ++
      (if f.hasPopups || f.hasRedirects then [{ factor := "Popups/Redirects", weight := 0.10, value := 1 }] else []) ++
      (if 0 < f.suspiciousIframes.length then [{ factor := "Suspicious Iframes", weight := 0.10, value := (f.suspiciousIframes.length : Int) }] else []) := by
  simp only [scoreState, applyRule_riskFactors, tlsAgeStep_riskFactors, domainAgeStep_riskFactors,
    Bool.or_eq_true, decide_eq_true_eq, List.append_assoc, List.nil_append]

/-- The truth values of the ten rule conditions of the scoring step on a
given input (the domain-age pair contributes two conditions). -/
structure RuleConds where
  domainUnder7 : Bool
  domainUnder30 : Bool
  tlsUnder7 : Bool
  passwordForm : Bool
  actionMismatch : Bool
  formPatterns : Bool
  manyExternalHosts : Bool
  manyKeywords : Bool
  linkPatterns : Bool
  popupOrRedirect : Bool
  iframes : Bool
deriving DecidableEq

/-- The rule-condition truth values determined by a concrete input. -/
def condsOf (f : PageFeatures) (sig : Signals) : RuleConds :=
  { domainUnder7 := match sig.domainAge with | some d => decide (d < 7) | none => false,
    domainUnder30 := match sig.domainAge with | some d => decide (d < 30) | none => false,
    tlsUnder7 := match sig.tlsAge with | some t => decide (t < 7) | none => false,
    passwordForm := f.hasPasswordForm,
    actionMismatch := f.hasActionMismatch,
    formPatterns := decide (0 < f.suspiciousFormPatterns.length),
    manyExternalHosts := decide (8 < f.externalHostsCount),
    manyKeywords := decide (3 < f.foundSuspiciousKeywords.length),
    linkPatterns := decide (0 < f.suspiciousLinkPatterns.length),
    popupOrRedirect := f.hasPopups || f.hasRedirects,
    iframes := decide (0 < f.suspiciousIframes.length) }

/-- The uncapped sum of fired rule weights as a function of the
rule-condition truth values alone. -/
def weightSum (c : RuleConds) : ℚ :=
  (if c.domainUnder7 then 0.35 else if c.domainUnder30 then 0.15 else 0) +
  (if c.tlsUnder7 then 0.20 else 0) +
  (if c.passwordForm then 0.20 else 0) +
  (if c.actionMismatch then 0.25 else 0) +
  (if c.formPatterns then 0.15 else 0) +
  (if c.manyExternalHosts then 0.10 else 0) +
  (if c.manyKeywords then 0.15 else 0) +
  (if c.linkPatterns then 0.10 else 0) +
  (if c.popupOrRedirect then 0.10 else 0) +
  (if c.iframes then 0.10 else 0)

/-- The capped score as a function of the rule-condition truth values. -/
def scoreOfConds (c : RuleConds) : ℚ := min (weightSum c) 1

/-- The uncapped weight sum measured in twentieths (every rule weight is a
multiple of 0.05). -/
def natWeightSum (c : RuleConds) : Nat :=
  (if c.domainUnder7 then 7 else if c.domainUnder30 then 3 else 0) +
  (if c.tlsUnder7 then 4 else 0) +
  (if c.passwordForm then 4 else 0) +
  (if c.actionMismatch then 5 else 0) +
  (if c.formPatterns then 3 else 0) +
  (if c.manyExternalHosts then 2 else 0) +
  (if c.manyKeywords then 3 else 0) +
  (if c.linkPatterns then 2 else 0) +
  (if c.popupOrRedirect then 2 else 0) +
  (if c.iframes then 2 else 0)

/-- Pointwise order on rule-condition vectors: every condition of the left
vector implies the corresponding condition of the right one. -/
def condLE (c c' : RuleConds) : Prop :=
  c.domainUnder7 ≤ c'.domainUnder7 ∧ c.domainUnder30 ≤ c'.domainUnder30 ∧
  c.tlsUnder7 ≤ c'.tlsUnder7 ∧ c.passwordForm ≤ c'.passwordForm ∧
  c.actionMismatch ≤ c'.actionMismatch ∧ c.formPatterns ≤ c'.formPatterns ∧
  c.manyExternalHosts ≤ c'.manyExternalHosts ∧ c.manyKeywords ≤ c'.manyKeywords ∧
  c.linkPatterns ≤ c'.linkPatterns ∧ c.popupOrRedirect ≤ c'.popupOrRedirect ∧
  c.iframes ≤ c'.iframes

instance (c c' : RuleConds) : Decidable (condLE c c') := by
  unfold condLE
  infer_instance

theorem ite_nat_div20 (b : Bool) (n : Nat) :
    (if b = true then ((n : ℚ) / 20) else 0) = (((if b = true then n else 0) : ℕ) : ℚ) / 20 := by
  cases b <;> simp

theorem ite_ite_nat_div20 (a b : Bool) (m n : Nat) :
    (if a = true then ((m : ℚ) / 20) else if b = true then ((n : ℚ) / 20) else 0) =
      (((if a = true then m else if b = true then n else 0) : ℕ) : ℚ) / 20 := by
  cases a <;> cases b <;> simp

theorem weightSum_eq_nat (c : RuleConds) : weightSum c = ((natWeightSum c : ℕ) : ℚ) / 20 := by
  unfold weightSum natWeightSum
  simp only [show (0.35 : ℚ) = ((7 : ℕ) : ℚ) / 20 from by norm_num,
    show (0.15 : ℚ) = ((3 : ℕ) : ℚ) / 20 from by norm_num,
    show (0.20 : ℚ) = ((4 : ℕ) : ℚ) / 20 from by norm_num,
    show (0.25 : ℚ) = ((5 : ℕ) : ℚ) / 20 from by norm_num,
    show (0.10 : ℚ) = ((2 : ℕ) : ℚ) / 20 from by norm_num]
  simp only [ite_ite_nat_div20]
  simp only [ite_nat_div20]
  push_cast
  ring

theorem firedWeights_sum_eq (f : PageFeatures) (sig : Signals) :
    (firedWeights f sig).sum = weightSum (condsOf f sig) := by
  rcases sig with ⟨da, ta, wb⟩
  rcases da with _ | d <;> rcases ta with _ | t <;>
    simp only [firedWeights, weightSum, condsOf, domainAgeWeights, tlsAgeWeights,
      List.sum_append, apply_ite List.sum, List.sum_cons, List.sum_nil, add_zero,
      decide_eq_true_eq, Bool.or_eq_true, Bool.false_eq_true, if_false]

theorem scoreState_score_conds (f : PageFeatures) (sig : Signals) :
    (scoreState f sig).score = weightSum (condsOf f sig) := by
  rw [scoreState_score, firedWeights_sum_eq]

theorem min_twentieth (k : ℕ) : min ((k : ℚ) / 20) 1 = ((min k 20 : ℕ) : ℚ) / 20 := by
  rcases le_total k 20 with h | h
  · have h1 : ((k : ℚ)) / 20 ≤ 1 := by
      rw [div_le_one (by norm_num : (0 : ℚ) < 20)]
      exact_mod_cast h
    rw [min_eq_left h1, Nat.min_eq_left h]
  · have h1 : (1 : ℚ) ≤ (k : ℚ) / 20 := by
      rw [le_div_iff₀ (by norm_num : (0 : ℚ) < 20)]
      have : (20 : ℚ) ≤ (k : ℚ) := by exact_mod_cast h
      linarith
    rw [min_eq_right h1, Nat.min_eq_right h]
    norm_num

theorem scan_score_def (f : PageFeatures) (sig : Signals) :
    (scan f sig).score = (jsRound (min ((scoreState f sig).score) 1 * 100) : ℚ) / 100 := rfl

theorem scan_riskLevel_def (f : PageFeatures) (sig : Signals) :
    (scan f sig).riskLevel = classify (min ((scoreState f sig).score) 1) := rfl

theorem scan_riskFactors_def (f : PageFeatures) (sig : Signals) :
    (scan f sig).riskFactors = (scoreState f sig).riskFactors := rfl

theorem scan_reasons_def (f : PageFeatures) (sig : Signals) :
    (scan f sig).reasons =
      (if (scoreState f sig).reasons.length = 0
        then [("No obvious suspicious patterns detected")]
        else (scoreState f sig).reasons) := rfl

theorem reported_eq_capped (f : PageFeatures) (sig : Signals) :
    (scan f sig).score = min ((scoreState f sig).score) 1 := by
  have hk : (scoreState f sig).score = ((natWeightSum (condsOf f sig) : ℕ) : ℚ) / 20 := by
    rw [scoreState_score_conds, weightSum_eq_nat]
  rw [scan_score_def, hk, min_twentieth]
  have h5 : ((min (natWeightSum (condsOf f sig)) 20 : ℕ) : ℚ) / 20 * 100 =
      (((5 * min (natWeightSum (condsOf f sig)) 20 : ℕ) : ℕ) : ℚ) := by
    push_cast
    ring
  rw [h5, jsRound_eq, round_natCast]
  push_cast
  ring

theorem domainAgeReasons_length (x : Option Int) :
    (domainAgeReasons x).length = (domainAgeWeights x).length := by
  rcases x with _ | d <;> simp only [domainAgeReasons, domainAgeWeights] <;> try split_ifs
  all_goals rfl

theorem domainAgeFactors_length (x : Option Int) :
    (domainAgeFactors x).length = (domainAgeWeights x).length := by
  rcases x with _ | d <;> simp only [domainAgeFactors, domainAgeWeights] <;> try split_ifs
  all_goals rfl

theorem tlsAgeReasons_length (x : Option Int) :
    (tlsAgeReasons x).length = (tlsAgeWeights x).length := by
  rcases x with _ | t <;> simp only [tlsAgeReasons, tlsAgeWeights] <;> try split_ifs
  all_goals rfl

theorem tlsAgeFactors_length (x : Option Int) :
    (tlsAgeFactors x).length = (tlsAgeWeights x).length := by
  rcases x with _ | t <;> simp only [tlsAgeFactors, tlsAgeWeights] <;> try split_ifs
  all_goals rfl

theorem scoreState_reasons_length (f : PageFeatures) (sig : Signals) :
    (scoreState f sig).reasons.length = (firedWeights f sig).length := by
  rw [scoreState_reasons]
  simp only [firedWeights, List.length_append, apply_ite List.length, List.length_cons,
    List.length_nil, domainAgeReasons_length, tlsAgeReasons_length]

theorem scoreState_riskFactors_length (f : PageFeatures) (sig : Signals) :
    (scoreState f sig).riskFactors.length = (firedWeights f sig).length := by
  rw [scoreState_riskFactors]
  simp only [firedWeights, List.length_append, apply_ite List.length, List.length_cons,
    List.length_nil, domainAgeFactors_length, tlsAgeFactors_length]

theorem scoreState_reasons_nil_iff (f : PageFeatures) (sig : Signals) :
    (scoreState f sig).reasons = [] ↔ firedWeights f sig = [] := by
  constructor <;> intro h
  · rw [← List.length_eq_zero, ← scoreState_reasons_length, h]
    rfl
  · rw [← List.length_eq_zero, scoreState_reasons_length, h]
    rfl

/-- C1: for every PageFeatures/Signals input, the score returned by the
scoring step equals the sum of the weights of the rules that fired, capped
at 1.0, and therefore always lies in the interval from 0 to 1. -/
theorem C1_score_is_capped_weight_sum : ∀ (f : PageFeatures) (sig : Signals),
    (scan f sig).score = min (firedWeights f sig).sum 1 ∧
    0 ≤ (scan f sig).score ∧ (scan f sig).score ≤ 1 := by
  intro f sig
  have h1 : (scan f sig).score = min (firedWeights f sig).sum 1 := by
    rw [reported_eq_capped, scoreState_score]
  refine ⟨h1, ?_, ?_⟩
  · rw [h1]
    have h0 : (0 : ℚ) ≤ (firedWeights f sig).sum := by
      rw [firedWeights_sum_eq, weightSum_eq_nat]
      positivity
    exact le_min h0 (by norm_num)
  · rw [h1]
    exact min_le_right _ _

/-- C2: the risk level is derived from the reported score by the
non-overlapping thresholds: above 0.7 HIGH, above 0.4 and at most 0.7
MEDIUM, at most 0.4 LOW; in particular 0.40 classifies LOW, 0.40001
MEDIUM, 0.70 MEDIUM and 0.70001 HIGH, and the risk level of every scan
result is the classification of its reported score. -/
theorem C2_classification_thresholds :
    (∀ q : ℚ, (classify q = RiskLevel.HIGH ↔ 0.7 < q) ∧
      (classify q = RiskLevel.MEDIUM ↔ 0.4 < q ∧ q ≤ 0.7) ∧
      (classify q = RiskLevel.LOW ↔ q ≤ 0.4)) ∧
    classify 0.40 = RiskLevel.LOW ∧ classify 0.40001 = RiskLevel.MEDIUM ∧
    classify 0.70 = RiskLevel.MEDIUM ∧ classify 0.70001 = RiskLevel.HIGH ∧
    ∀ (f : PageFeatures) (sig : Signals),
      (scan f sig).riskLevel = classify ((scan f sig).score) := by
  refine ⟨?_, by norm_num [classify], by norm_num [classify], by norm_num [classify],
    by norm_num [classify], ?_⟩
  · intro q
    unfold classify
    split_ifs with h1 h2
    · exact ⟨iff_of_true rfl h1,
        iff_of_false (by simp) (fun hc => absurd h1 (not_lt.mpr hc.2)),
        iff_of_false (by simp) (fun hc => absurd h1 (not_lt.mpr (by linarith)))⟩
    · exact ⟨iff_of_false (by simp) h1,
        iff_of_true rfl ⟨h2, not_lt.mp h1⟩,
        iff_of_false (by simp) (fun hc => absurd h2 (not_lt.mpr hc))⟩
    · exact ⟨iff_of_false (by simp) h1,
        iff_of_false (by simp) (fun hc => h2 hc.1),
        iff_of_true rfl (not_lt.mp h2)⟩
  · intro f sig
    rw [scan_riskLevel_def, reported_eq_capped]

/-- Witness for C2: the characterisations applied at concrete scores. -/
theorem C2_classification_thresholds_witness :
    classify 0.9 = RiskLevel.HIGH ∧ classify 0.5 = RiskLevel.MEDIUM :=
  ⟨((C2_classification_thresholds.1 0.9).1).mpr (by norm_num),
   ((C2_classification_thresholds.1 0.5).2.1).mpr (by norm_num)⟩

/-- C10: the scoring step classifies on the unrounded (only clamped) sum of
fired weights, reports that sum rounded to two decimal places, and the
rounding never influences the classification: classifying the reported
score gives back the reported risk level. -/
theorem C10_classification_before_rounding : ∀ (f : PageFeatures) (sig : Signals),
    (scan f sig).riskLevel = classify (min ((scoreState f sig).score) 1) ∧
    (scan f sig).score = (jsRound (min ((scoreState f sig).score) 1 * 100) : ℚ) / 100 ∧
    classify ((scan f sig).score) = (scan f sig).riskLevel := by
  intro f sig
  refine ⟨scan_riskLevel_def f sig, scan_score_def f sig, ?_⟩
  rw [reported_eq_capped, scan_riskLevel_def]

theorem ite_weight_mono {b b' : Bool} (h : b ≤ b') {w : ℚ} (hw : 0 ≤ w) :
    (if b = true then w else 0) ≤ (if b' = true then w else 0) := by
  cases b <;> cases b' <;> simp_all
  exact absurd h (by decide)

theorem dom_pair_mono {a a' b b' : Bool} (ha : a ≤ a') (hb : b ≤ b') :
    (if a = true then (0.35 : ℚ) else if b = true then 0.15 else 0) ≤
      (if a' = true then (0.35 : ℚ) else if b' = true then 0.15 else 0) := by
  cases a <;> cases a' <;> cases b <;> cases b' <;> simp_all <;> norm_num
  all_goals exact absurd (show (true : Bool) ≤ false by assumption) (by decide)

/-- C6: turning any single rule condition from false to true, holding all
other conditions fixed, never decreases the resulting score: the score is
a monotone function of the rule-condition vector, and the score of every
scan is that function of its input's condition vector. -/
theorem C6_monotonicity :
    (∀ c c' : RuleConds, condLE c c' → scoreOfConds c ≤ scoreOfConds c') ∧
    (∀ (f : PageFeatures) (sig : Signals), (scan f sig).score = scoreOfConds (condsOf f sig)) := by
  constructor
  · intro c c' h
    obtain ⟨h1, h2, h3, h4, h5, h6, h7, h8, h9, h10, h11⟩ := h
    unfold scoreOfConds weightSum
    refine min_le_min ?_ le_rfl
    exact add_le_add (add_le_add (add_le_add (add_le_add (add_le_add (add_le_add (add_le_add
      (add_le_add (add_le_add (dom_pair_mono h1 h2) (ite_weight_mono h3 (by norm_num)))
      (ite_weight_mono h4 (by norm_num))) (ite_weight_mono h5 (by norm_num)))
      (ite_weight_mono h6 (by norm_num))) (ite_weight_mono h7 (by norm_num)))
      (ite_weight_mono h8 (by norm_num))) (ite_weight_mono h9 (by norm_num)))
      (ite_weight_mono h10 (by norm_num))) (ite_weight_mono h11 (by norm_num))
  · intro f sig
    rw [reported_eq_capped, scoreState_score_conds]
    rfl

/-- Witness for C6: monotonicity applied to a concrete pair of condition
vectors differing in the password-form condition only. -/
theorem C6_monotonicity_witness :
    scoreOfConds ⟨false, false, false, false, false, false, false, false, false, false, false⟩ ≤
      scoreOfConds ⟨false, false, false, true, false, false, false, false, false, false, false⟩ :=
  C6_monotonicity.1 _ _ (by refine ⟨?_, ?_, ?_, ?_, ?_, ?_, ?_, ?_, ?_, ?_, ?_⟩ <;> decide)

/-- A page with no suspicious features. -/
def inertFeatures : PageFeatures :=
  { hasPasswordForm := false, hasActionMismatch := false, suspiciousFormPatterns := [],
    externalHostsCount := 0, foundSuspiciousKeywords := [], suspiciousLinkPatterns := [],
    hasPopups := false, hasRedirects := false, suspiciousIframes := [] }

/-- All three signals unavailable. -/
def nullSignals : Signals :=
  { domainAge := none, tlsAge := none, waybackFirstSeen := none }

/-- C3 counterexample: on an input firing zero rules the single fallback
reason is the capitalised string, so it differs from the lowercase fallback
entry stated by the claim. -/
theorem C3_fallback_string_counterexample :
    (scan inertFeatures nullSignals).reasons = [("No obvious suspicious patterns detected")] ∧
    (scan inertFeatures nullSignals).reasons ≠ [("no obvious suspicious patterns detected")] := by
  constructor <;> decide

/-- C3 (amended): reasons is never empty; when at least one rule fires the
riskFactors and reasons sequences have equal length, both equal to the
number of fired rules; when zero rules fire, reasons is exactly the one
capitalised fallback entry and riskFactors is empty. -/
theorem C3_reasons_riskFactors_shape : ∀ (f : PageFeatures) (sig : Signals),
    (scan f sig).reasons ≠ [] ∧
    (firedWeights f sig ≠ [] →
      (scan f sig).riskFactors.length = (scan f sig).reasons.length ∧
      (scan f sig).reasons.length = (firedWeights f sig).length) ∧
    (firedWeights f sig = [] →
      (scan f sig).reasons = [("No obvious suspicious patterns detected")] ∧
      (scan f sig).riskFactors = []) := by
  intro f sig
  rw [scan_reasons_def, scan_riskFactors_def]
  by_cases h : (scoreState f sig).reasons.length = 0
  · have hnil : (scoreState f sig).reasons = [] := List.length_eq_zero.mp h
    have hfw : firedWeights f sig = [] := (scoreState_reasons_nil_iff f sig).mp hnil
    refine ⟨by simp [h], fun hne => absurd hfw hne, fun _ => ⟨by simp [h], ?_⟩⟩
    have hlen : (scoreState f sig).riskFactors.length = 0 := by
      rw [scoreState_riskFactors_length, hfw]
      rfl
    exact List.length_eq_zero.mp hlen
  · have hne : (scoreState f sig).reasons ≠ [] := fun hh => h (by rw [hh]; rfl)
    refine ⟨by simp [h, hne], fun _ => ⟨?_, ?_⟩, fun hfw => ?_⟩
    · rw [if_neg h, scoreState_riskFactors_length, ← scoreState_reasons_length]
    · rw [if_neg h, scoreState_reasons_length]
    · exact absurd ((scoreState_reasons_nil_iff f sig).mpr hfw) hne

/-- Witness for C3: the fallback branch on an inert input and the
equal-length branch on an input with a password form. -/
theorem C3_reasons_riskFactors_shape_witness :
    (scan inertFeatures nullSignals).reasons = [("No obvious suspicious patterns detected")] ∧
    (scan { inertFeatures with hasPasswordForm := true } nullSignals).riskFactors.length =
      (scan { inertFeatures with hasPasswordForm := true } nullSignals).reasons.length :=
  ⟨((C3_reasons_riskFactors_shape inertFeatures nullSignals).2.2 (by decide)).1,
   ((C3_reasons_riskFactors_shape { inertFeatures with hasPasswordForm := true } nullSignals).2.1
      (by decide)).1⟩

/-- Selects the riskFactors entries produced by the domain-age rule pair. -/
def domFilter (rf : RiskFactor) : Bool :=
  decide (rf.factor = "New Domain") || decide (rf.factor = "Recent Domain")

/-- The weight contributed by the scanner's domain-age rule pair. -/
def domainAgeWeight (x : Option Int) : ℚ :=
  match x with
  | some d => if d < 7 then 0.35 else if d < 30 then 0.15 else 0
  | none => 0

/-- The weight contributed by the single domain-age rule of the server's
inline scan override. -/
def serverDomainWeight (x : Option Int) : ℚ :=
  match x with
  | some d => if d < 7 then 0.35 else 0
  | none => 0

theorem domainAgeWeights_sum (x : Option Int) :
    (domainAgeWeights x).sum = domainAgeWeight x := by
  rcases x with _ | d <;>
    simp only [domainAgeWeights, domainAgeWeight, apply_ite List.sum, List.sum_cons,
      List.sum_nil, add_zero]

theorem filter_domainAgeFactors (x : Option Int) :
    (domainAgeFactors x).filter domFilter = domainAgeFactors x := by
  rcases x with _ | d <;> simp only [domainAgeFactors] <;> try split_ifs
  all_goals simp [domFilter, List.filter]

theorem filter_tlsAgeFactors (x : Option Int) :
    (tlsAgeFactors x).filter domFilter = [] := by
  rcases x with _ | t <;> simp only [tlsAgeFactors] <;> try split_ifs
  all_goals rfl

theorem serverRule_score (st : ServerState) (c : Bool) (w : ℚ) (r : String) :
    (serverRule st c w r).score = st.score + (if c then w else 0) := by
  cases c <;> simp [serverRule]

theorem serverDomainStep_score (st : ServerState) (x : Option Int) :
    (serverDomainStep st x).score = st.score + serverDomainWeight x := by
  rcases x with _ | d <;> simp only [serverDomainStep, serverDomainWeight] <;> try split_ifs
  all_goals simp

theorem serverTLSStep_score (st : ServerState) (x : Option Int) :
    (serverTLSStep st x).score = st.score + (tlsAgeWeights x).sum := by
  rcases x with _ | t <;> simp only [serverTLSStep, tlsAgeWeights] <;> try split_ifs
  all_goals simp

/-- C5 (amended): in the scanner's scan the domain-age rules form a
mutually exclusive pair: the riskFactors entries they contribute are
exactly the fired branch (weight 0.35 for a non-null age below 7 days,
else weight 0.15 below 30 days), so at most one of the two appears, and
the uncapped score gains exactly that branch weight compared to the same
input with a null domain age. The server's inline override has only the
0.35 branch: its score gains nothing for a domain aged 7 days or more. -/
theorem C5_domain_age_pair :
    (∀ (f : PageFeatures) (sig : Signals),
      (scan f sig).riskFactors.filter domFilter = domainAgeFactors sig.domainAge) ∧
    (∀ (f : PageFeatures) (sig : Signals),
      ((scan f sig).riskFactors.filter domFilter).length ≤ 1) ∧
    (∀ (f : PageFeatures) (sig : Signals),
      (scoreState f sig).score = domainAgeWeight sig.domainAge +
        (scoreState f { sig with domainAge := none }).score) ∧
    (∀ (domainAge tlsAge : Option Int) (pw am : Bool) (ec : Nat),
      (serverState domainAge tlsAge pw am ec).score = serverDomainWeight domainAge +
        (serverState none tlsAge pw am ec).score) := by
  have hfilter : ∀ (f : PageFeatures) (sig : Signals),
      (scan f sig).riskFactors.filter domFilter = domainAgeFactors sig.domainAge := by
    intro f sig
    rw [scan_riskFactors_def, scoreState_riskFactors]
    simp only [List.filter_append, filter_domainAgeFactors, filter_tlsAgeFactors,
      apply_ite (List.filter domFilter), List.filter_cons, List.filter_nil]
    simp +decide [domFilter, ite_self]
  refine ⟨hfilter, ?_, ?_, ?_⟩
  · intro f sig
    rw [hfilter]
    rcases sig.domainAge with _ | d <;> simp only [domainAgeFactors] <;> try split_ifs
    all_goals simp
  · intro f sig
    rw [scoreState_score, scoreState_score]
    simp only [firedWeights, List.sum_append, domainAgeWeights_sum, domainAgeWeight]
    ring
  · intro domainAge tlsAge pw am ec
    simp only [serverState, serverRule_score, serverTLSStep_score, serverDomainStep_score,
      serverDomainWeight]
    ring

/-- C5 counterexample: in the server's inline override a domain aged 10
days (non-null and below 30) adds no weight at all — the result is
identical to a scan with a null domain age — refuting the claimed 0.15
branch for that code path. -/
theorem C5_server_missing_recent_domain_rule :
    serverScan (some 10) none false false 0 =
      { score := 0, reasons := [("No obvious suspicious patterns detected")] } ∧
    serverScan (some 10) none false false 0 = serverScan none none false false 0 := by
  have hs : ∀ x : Option Int, (serverState x none false false 0).score =
      serverDomainWeight x := by
    intro x
    simp only [serverState, serverRule_score, serverTLSStep_score, serverDomainStep_score,
      tlsAgeWeights]
    norm_num
  have h10 : (serverState (some 10) none false false 0).score = 0 := by
    rw [hs]
    norm_num [serverDomainWeight]
  have hn : (serverState none none false false 0).score = 0 := by
    rw [hs]
    norm_num [serverDomainWeight]
  have hr10 : (serverState (some 10) none false false 0).reasons = [] := rfl
  have hrn : (serverState none none false false 0).reasons = [] := rfl
  constructor
  · simp only [serverScan, h10, hr10]
    simp [jsRound_eq]
  · simp only [serverScan, h10, hn, hr10, hrn]

theorem ageInDays_nonneg (now t : Int) : 0 ≤ ageInDays now t := by
  rw [ageInDays, jsCeil_eq]
  apply Int.ceil_nonneg
  apply div_nonneg
  · exact_mod_cast abs_nonneg (now - t)
  · norm_num

theorem ageInDays_eval (now t v : Int) (h : |now - t| = v * 86400000) : ageInDays now t = v := by
  rw [ageInDays, jsCeil_eq, h]
  push_cast
  rw [show ((1000 : ℚ) * 60 * 60 * 24) = 86400000 from by norm_num, mul_div_assoc,
    div_self (by norm_num : (86400000 : ℚ) ≠ 0), mul_one, Int.ceil_intCast]

/-- Modelled from the spec: the claim's reading of the registration-age
lookup, which takes the EARLIEST of the date fields present in the record.
Stated only for comparison with getDomainAge, which takes the first
present field instead. -/
def getDomainAgeSpecEarliest (now : Int) (result : Option WhoisRecord) : Option JSNumber :=
  match result with
  | none => none
  | some r =>
    match ([r.creationDate, r.registered, r.created].filterMap (fun v => v.bind id)).min? with
    | some earliest => some (JSNumber.int (ageInDays now earliest))
    | none => none

/-- C7 (amended): the registration-age lookup uses the first present of the
creationDate, registered and created fields, in that fixed priority order
(not the earliest date); a chosen valid date yields the ceiling of the
absolute day difference from now; a thrown lookup or a record with no date
field yields null. -/
theorem C7_domain_age_first_present : ∀ (now t : Int) (x y : Option (Option Int)),
    getDomainAge now none = none ∧
    getDomainAge now (some { creationDate := some (some t), registered := x, created := y }) =
      some (JSNumber.int (jsCeil (((|now - t| : Int) : ℚ) / (1000 * 60 * 60 * 24)))) ∧
    getDomainAge now (some { creationDate := none, registered := some (some t), created := y }) =
      some (JSNumber.int (jsCeil (((|now - t| : Int) : ℚ) / (1000 * 60 * 60 * 24)))) ∧
    getDomainAge now (some { creationDate := none, registered := none, created := some (some t) }) =
      some (JSNumber.int (jsCeil (((|now - t| : Int) : ℚ) / (1000 * 60 * 60 * 24)))) ∧
    getDomainAge now (some { creationDate := none, registered := none, created := none }) = none :=
  fun _ _ _ _ => ⟨rfl, rfl, rfl, rfl, rfl⟩

/-- C7 counterexample: with a creation date five days after epoch and a
registration date at epoch, at a clock six days after epoch the code
reports 1 day (first present field), while the claim's earliest-field
reading reports 6 days. -/
theorem C7_first_present_not_earliest :
    getDomainAge (6 * 86400000)
        (some { creationDate := some (some (5 * 86400000)), registered := some (some 0), created := none }) = some (JSNumber.int 1) ∧
    getDomainAgeSpecEarliest (6 * 86400000)
        (some { creationDate := some (some (5 * 86400000)), registered := some (some 0), created := none }) = some (JSNumber.int 6) ∧
    JSNumber.int 1 ≠ JSNumber.int 6 := by
  refine ⟨?_, ?_, by decide⟩
  · show some (JSNumber.int (ageInDays (6 * 86400000) (5 * 86400000))) = some (JSNumber.int 1)
    rw [ageInDays_eval (6 * 86400000) (5 * 86400000) 1 (by decide)]
  · show some (JSNumber.int (ageInDays (6 * 86400000) 0)) = some (JSNumber.int 6)
    rw [ageInDays_eval (6 * 86400000) 0 6 (by decide)]

/-- C4 (amended): none of the three providers propagates an exception —
every modelled outcome yields a value — and each returns null on a thrown
lookup, a connection error, the timeout, a missing date or certificate
field, or an archive response with fewer than two rows or a missing or
empty timestamp cell; but a date field that is present and unparsable
yields NaN rather than null. -/
theorem C4_providers_null_on_failure : ∀ (now : Int) (dateOf : String → Option Int),
    getDomainAge now none = none ∧
    getDomainAge now (some { creationDate := none, registered := none, created := none }) = none ∧
    getTLSAge now TLSOutcome.connectError = none ∧
    getTLSAge now TLSOutcome.timeout = none ∧
    getTLSAge now (TLSOutcome.connected none) = none ∧
    getWaybackFirstSeen dateOf now WaybackOutcome.fetchError = none ∧
    getWaybackFirstSeen dateOf now (WaybackOutcome.data []) = none ∧
    (∀ row : List String, getWaybackFirstSeen dateOf now (WaybackOutcome.data [row]) = none) ∧
    (∀ x y : Option (Option Int),
      getDomainAge now (some { creationDate := some none, registered := x, created := y }) =
        some JSNumber.nan) ∧
    getTLSAge now (TLSOutcome.connected (some none)) = some JSNumber.nan :=
  fun _ _ => ⟨rfl, rfl, rfl, rfl, rfl, rfl, rfl, fun _ => rfl, fun _ _ => rfl, rfl⟩

/-- C4 counterexample: a record whose creation-date field is present but
unparsable makes the registration-age lookup return NaN, not null. -/
theorem C4_unparsable_date_not_null :
    getDomainAge 0 (some { creationDate := some none, registered := none, created := none }) =
      some JSNumber.nan ∧
    some JSNumber.nan ≠ (none : Option JSNumber) :=
  ⟨rfl, by decide⟩

/-- C9 (amended): every non-NaN numeric result of the three providers is
nonnegative; a date in the future of the clock is not clamped to 0 — the
code takes the ceiling of the absolute difference, so a creation date k
days in the future yields k, not 0. -/
theorem C9_nonnull_ages_nonneg :
    (∀ (now : Int) (res : Option WhoisRecord) (n : Int),
      getDomainAge now res = some (JSNumber.int n) → 0 ≤ n) ∧
    (∀ (now : Int) (o : TLSOutcome) (n : Int),
      getTLSAge now o = some (JSNumber.int n) → 0 ≤ n) ∧
    (∀ (dateOf : String → Option Int) (now : Int) (o : WaybackOutcome) (n : Int),
      getWaybackFirstSeen dateOf now o = some (JSNumber.int n) → 0 ≤ n) ∧
    (∀ (now k : Int), 0 < k →
      getDomainAge now (some { creationDate := some (some (now + k * 86400000)), registered := none, created := none }) = some (JSNumber.int k)) := by
  refine ⟨?_, ?_, ?_, ?_⟩
  · intro now res n h
    unfold getDomainAge at h
    split at h
    · exact absurd h (by simp)
    · split at h
      · exact absurd h (by simp)
      · simp at h
      · simp only [Option.some.injEq, JSNumber.int.injEq] at h
        rw [← h]
        exact ageInDays_nonneg _ _
  · intro now o n h
    unfold getTLSAge at h
    split at h
    · exact absurd h (by simp)
    · exact absurd h (by simp)
    · exact absurd h (by simp)
    · simp at h
    · simp only [Option.some.injEq, JSNumber.int.injEq] at h
      rw [← h]
      exact ageInDays_nonneg _ _
  · intro dateOf now o n h
    unfold getWaybackFirstSeen at h
    split at h
    · exact absurd h (by simp)
    · split at h
      · exact absurd h (by simp)
      · split at h
        · exact absurd h (by simp)
        · split at h
          · exact absurd h (by simp)
          · split at h
            · simp at h
            · simp only [Option.some.injEq, JSNumber.int.injEq] at h
              rw [← h]
              exact ageInDays_nonneg _ _
  · intro now k hk
    show some (JSNumber.int (ageInDays now (now + k * 86400000))) = some (JSNumber.int k)
    rw [ageInDays_eval now (now + k * 86400000) k ?_]
    rw [show now - (now + k * 86400000) = -(k * 86400000) from by ring, abs_neg]
    exact abs_of_pos (mul_pos hk (by norm_num))

/-- Witness for C9: the future-date branch at five days and the
nonnegativity statements applied to concrete provider results. -/
theorem C9_nonnull_ages_nonneg_witness :
    (0 : Int) ≤ 5 ∧
    getDomainAge 0 (some { creationDate := some (some (0 + 5 * 86400000)), registered := none, created := none }) = some (JSNumber.int 5) ∧
    0 ≤ ageInDays 0 0 := by
  have h4 := C9_nonnull_ages_nonneg.2.2.2 0 5 (by decide)
  exact ⟨C9_nonnull_ages_nonneg.1 0 _ 5 h4, h4,
    C9_nonnull_ages_nonneg.2.1 0 (TLSOutcome.connected (some (some 0))) _ rfl⟩

/-- C9 counterexample: a creation date five days in the future of the
clock yields an age of 5 days, not the claimed clamped 0. -/
theorem C9_future_date_not_clamped :
    getDomainAge 0 (some { creationDate := some (some (5 * 86400000)), registered := none, created := none }) = some (JSNumber.int 5) ∧
    JSNumber.int 5 ≠ JSNumber.int 0 ∧
    getTLSAge 0 (TLSOutcome.connected (some none)) = some JSNumber.nan := by
  refine ⟨?_, by decide, rfl⟩
  show some (JSNumber.int (ageInDays 0 (5 * 86400000))) = some (JSNumber.int 5)
  rw [ageInDays_eval 0 (5 * 86400000) 5 (by decide)]

/-- C8: the apex-domain resolver splits the parsed hostname on dots; with
at least two labels it returns the last two joined by a dot, otherwise the
full hostname; an unparsable URL resolves to null; and the documented
example URL resolves to the two-label apex co.uk. -/
theorem C8_etld_plus_one :
    (∀ (url : String) (h : String), parseHostname url = some h →
      2 ≤ (jsSplit h '.').length →
      getETLDPlusOne url = some (joinDot ((jsSplit h '.').drop ((jsSplit h '.').length - 2)))) ∧
    (∀ (url : String) (h : String), parseHostname url = some h →
      (jsSplit h '.').length < 2 → getETLDPlusOne url = some h) ∧
    (∀ url : String, parseHostname url = none → getETLDPlusOne url = none) ∧
    getETLDPlusOne ("https://login.example.co.uk/path") = some ("co.uk") := by
  refine ⟨?_, ?_, ?_, by decide⟩
  · intro url h hp hlen
    simp only [getETLDPlusOne, hp]
    rw [if_pos hlen]
  · intro url h hp hlen
    simp only [getETLDPlusOne, hp]
    rw [if_neg (by omega)]
  · intro url hp
    simp only [getETLDPlusOne, hp]

/-- Witness for C8: the resolver applied to concrete URLs covering the
two-label slice, the short-hostname branch and the unparsable branch. -/
theorem C8_etld_plus_one_witness :
    getETLDPlusOne ("https://a.b/") = some ("a.b") ∧
    getETLDPlusOne ("https://localhost/") = some ("localhost") ∧
    getETLDPlusOne ("nourl") = none ∧
    getETLDPlusOne ("https://login.example.co.uk/path") = some ("co.uk") :=
  ⟨(C8_etld_plus_one.1 ("https://a.b/") ("a.b") (by decide) (by decide)).trans (by decide),
   C8_etld_plus_one.2.1 ("https://localhost/") ("localhost") (by decide) (by decide),
   C8_etld_plus_one.2.2.1 ("nourl") (by decide),
   C8_etld_plus_one.2.2.2⟩

end VibeSniff
